import Mathlib

/-!
Shallow embedding of the reference-data API core (countries / states / cities
with a transactional event log).  Rows are structures, the relational store is
a `DB` structure of lists kept in insertion order, and every write operation is
a pure function returning the post-transaction store together with an
`Except`-style outcome.  Storage-level constraints (unique indexes and
delete-restrict foreign keys, as declared in the SQLAlchemy models and the
alembic migration) are enforced by `commitCheck` on the staged store: a
violation rolls the whole transaction back, so the caller keeps the original
store — this models PostgreSQL raising `IntegrityError` at flush/commit time.
-/

set_option autoImplicit false

namespace GeoApi

/-- Row of `main.countries` (models/country.py). -/
structure Country where
  id : Nat
  name : String
  code : String
deriving DecidableEq

/-- Row of `main.states` (models/state.py); `country_id` is a foreign key to
countries with `ondelete="RESTRICT"`. -/
structure State where
  id : Nat
  country_id : Nat
  name : String
  code : String
deriving DecidableEq

/-- Row of `main.cities` (models/city.py); `state_id` is a foreign key to
states with `ondelete="RESTRICT"`. -/
structure City where
  id : Nat
  state_id : Nat
  name : String
  code : String
  is_active : Bool
deriving DecidableEq

/-- Request metadata (crud/country.py `RequestInfo`). -/
structure RequestInfo where
  method : String
  path : String
  body : Option String
  ip_address : Option String
  user_id : Option String
  status_code : Option Nat
deriving DecidableEq

/-- Row of `main.event_logs` (models/event_log.py); the server-generated
columns (`id`, `created_at`, `processed_at`) are omitted. -/
structure EventLog where
  event_type : String
  entity_type : String
  entity_id : Nat
  request_method : String
  request_path : String
  request_body : Option String
  user_id : Option String
  ip_address : Option String
  status_code : Option Nat
  processing_status : String
deriving DecidableEq

/-- A storage-level constraint violation (PostgreSQL `IntegrityError`),
identified by the violated constraint or index. -/
inductive IntegrityViolation where
  | uniqueViolation (index : String)
  | fkViolation (constraint : String)
deriving DecidableEq

/-- Errors surfaced by the CRUD layer: the domain errors of
domain/exceptions.py plus a propagated storage `IntegrityError`. -/
inductive CrudErr where
  | duplicateCode (entity_type : String) (code : String)
  | entityNotFound (entity_type : String) (entity_id : Nat)
  | integrity (v : IntegrityViolation)
deriving DecidableEq

/-- The persistent store: one list per table, in insertion order, plus the
autoincrement counters. -/
structure DB where
  countries : List Country
  states : List State
  cities : List City
  event_logs : List EventLog
  next_country_id : Nat
  next_state_id : Nat
  next_city_id : Nat
deriving DecidableEq

/-- schemas/country.py `CountryCreateRequest` after pydantic validation. -/
structure CountryCreateRequest where
  name : String
  code : String
deriving DecidableEq

/-- schemas/country.py `CountryUpdateRequest` after pydantic validation;
`none` means the field was not supplied. -/
structure CountryUpdateRequest where
  name : Option String
  code : Option String
deriving DecidableEq

/-- ASCII uppercase of a character list, modelling Python `str.upper()`. -/
def upperChars : List Char → List Char
  | [] => []
  | c :: cs => c.toUpper :: upperChars cs

/-- schemas/country.py `validate_code_uppercase` body: `v.upper()`. -/
def validate_code_uppercase (v : String) : String := ⟨upperChars v.data⟩

/-- Pydantic field validation of `CountryCreateRequest`: `name` must be 1–100
characters, `code` exactly 2 characters, and `validate_code_uppercase`
normalizes the code to uppercase. -/
def mkCountryCreateRequest (name code : String) : Option CountryCreateRequest :=
  if 1 ≤ name.length && name.length ≤ 100 && code.length == 2 then
    some { name := name, code := validate_code_uppercase code }
  else
    none

/-- schemas/state.py create schema after pydantic validation. -/
structure StateCreateRequest where
  country_id : Nat
  name : String
  code : String
deriving DecidableEq

/-- schemas/state.py update schema after pydantic validation. -/
structure StateUpdateRequest where
  country_id : Option Nat
  name : Option String
  code : Option String
deriving DecidableEq

/-- schemas/city.py `CityCreateRequest` after pydantic validation. -/
structure CityCreateRequest where
  state_id : Nat
  name : String
  code : String
  is_active : Bool
deriving DecidableEq

/-- schemas/city.py `CityUpdateRequest` after pydantic validation. -/
structure CityUpdateRequest where
  name : Option String
  code : Option String
  is_active : Option Bool
deriving DecidableEq

/-- domain/validators/country.py `validate_country_code_unique`. -/
def validate_country_code_unique (db : DB) (code : String)
    (exclude_id : Option Nat) : Except CrudErr Unit :=
  let existing := db.countries.find? fun c =>
    c.code == code && (match exclude_id with
      | none => true
      | some i => c.id != i)
  match existing with
  | some _ => .error (.duplicateCode "Country" code)
  | none => .ok ()

/-- domain/validators/state.py `validate_country_exists`. -/
def validate_country_exists (db : DB) (country_id : Nat) : Except CrudErr Unit :=
  match db.countries.find? (fun c => c.id == country_id) with
  | some _ => .ok ()
  | none => .error (.entityNotFound "Country" country_id)

/-- domain/validators/state.py `validate_state_code_unique`. -/
def validate_state_code_unique (db : DB) (code : String)
    (exclude_id : Option Nat) : Except CrudErr Unit :=
  let existing := db.states.find? fun s =>
    s.code == code && (match exclude_id with
      | none => true
      | some i => s.id != i)
  match existing with
  | some _ => .error (.duplicateCode "State" code)
  | none => .ok ()

/-- domain/validators/city.py `validate_state_exists`. -/
def validate_state_exists (db : DB) (state_id : Nat) : Except CrudErr Unit :=
  match db.states.find? (fun s => s.id == state_id) with
  | some _ => .ok ()
  | none => .error (.entityNotFound "State" state_id)

/-- domain/validators/city.py `validate_city_code_unique`: only rows with
`is_active = true` are considered, whatever the candidate row's activity. -/
def validate_city_code_unique (db : DB) (code : String)
    (exclude_id : Option Nat) : Except CrudErr Unit :=
  let existing := db.cities.find? fun c =>
    c.code == code && c.is_active && (match exclude_id with
      | none => true
      | some i => c.id != i)
  match existing with
  | some _ => .error (.duplicateCode "Active city" code)
  | none => .ok ()

/-- Tests whether the list has a repeated element. -/
def hasDup : List String → Bool
  | [] => false
  | c :: cs => cs.contains c || hasDup cs

/-- Codes of the active cities, in store order. -/
def activeCityCodes (cities : List City) : List String :=
  (cities.filter fun c => c.is_active).map fun c => c.code

/-- The storage constraints of the SQLAlchemy models and the alembic
migrations, checked over the staged store at commit time: `countries.code`
unique, `states.code` unique, the partial unique index
`cities_code_active_unique` on `cities.code where is_active`, and the
delete-restrict foreign keys `states.country_id` and `cities.state_id`. -/
def commitCheck (db : DB) : Option IntegrityViolation :=
  if hasDup (db.countries.map fun c => c.code) then
    some (.uniqueViolation "countries_code_key")
  else if hasDup (db.states.map fun s => s.code) then
    some (.uniqueViolation "states_code_key")
  else if hasDup (activeCityCodes db.cities) then
    some (.uniqueViolation "cities_code_active_unique")
  else if db.states.any (fun s => !(db.countries.any fun c => c.id == s.country_id)) then
    some (.fkViolation "states_country_id_fkey")
  else if db.cities.any (fun ci => !(db.states.any fun s => s.id == ci.state_id)) then
    some (.fkViolation "cities_state_id_fkey")
  else
    none

/-- The event-log row each CRUD operation assembles from the request
metadata (identical field mapping in all nine operations). -/
def mkEventLog (event_type entity_type : String) (entity_id : Nat)
    (ri : RequestInfo) : EventLog :=
  { event_type := event_type
    entity_type := entity_type
    entity_id := entity_id
    request_method := ri.method
    request_path := ri.path
    request_body := ri.body
    user_id := ri.user_id
    ip_address := ri.ip_address
    status_code := ri.status_code
    processing_status := "completed" }

/-- crud/country.py `create_country`: validate code uniqueness, insert the
row and its CREATE event-log row, commit both or roll back. -/
def create_country (db : DB) (country_data : CountryCreateRequest)
    (ri : RequestInfo) : DB × Except CrudErr Country :=
  match validate_country_code_unique db country_data.code none with
  | .error e => (db, .error e)
  | .ok _ =>
    let country : Country :=
      { id := db.next_country_id, name := country_data.name, code := country_data.code }
    let log := mkEventLog "CREATE" "country" country.id ri
    let staged : DB :=
      { db with
        countries := db.countries ++ [country]
        event_logs := db.event_logs ++ [log]
        next_country_id := db.next_country_id + 1 }
    match commitCheck staged with
    | some v => (db, .error (.integrity v))
    | none => (staged, .ok country)

/-- crud/country.py `get_country`: returns `none` when absent, never an
error. -/
def get_country (db : DB) (country_id : Nat) : Option Country :=
  db.countries.find? fun c => c.id == country_id

/-- crud/country.py `get_countries`: offset/limit pagination in store
order. -/
def get_countries (db : DB) (skip limit : Nat) : List Country :=
  (db.countries.drop skip).take limit

/-- The field-by-field partial update of crud/country.py `update_country`
(each field overwritten only when supplied). -/
def applyCountryUpdate (u : CountryUpdateRequest) (c : Country) : Country :=
  let c1 := match u.name with
    | some n => { c with name := n }
    | none => c
  match u.code with
  | some cd => { c1 with code := cd }
  | none => c1

/-- The conditional code validation of crud/country.py `update_country`:
`validate_country_code_unique` runs only when the code is supplied and
differs from the stored code. -/
def update_country_code_validation (db : DB) (country_id : Nat)
    (country_data : CountryUpdateRequest) (country : Country) : Except CrudErr Unit :=
  match country_data.code with
  | some newCode =>
    if newCode != country.code then
      validate_country_code_unique db newCode (some country_id)
    else .ok ()
  | none => .ok ()

/-- crud/country.py `update_country`: returns `.ok none` when the row is
absent; validates code uniqueness only when the code is supplied and
differs. -/
def update_country (db : DB) (country_id : Nat) (country_data : CountryUpdateRequest)
    (ri : RequestInfo) : DB × Except CrudErr (Option Country) :=
  match db.countries.find? (fun c => c.id == country_id) with
  | none => (db, .ok none)
  | some country =>
    match update_country_code_validation db country_id country_data country with
    | .error e => (db, .error e)
    | .ok _ =>
      let updated := applyCountryUpdate country_data country
      let log := mkEventLog "UPDATE" "country" updated.id ri
      let staged : DB :=
        { db with
          countries := db.countries.map fun c => if c.id == country_id then updated else c
          event_logs := db.event_logs ++ [log] }
      match commitCheck staged with
      | some v => (db, .error (.integrity v))
      | none => (staged, .ok (some updated))

/-- crud/country.py `delete_country`: returns `.ok none` when absent; no
pre-check for child states — the DELETE and the event-log INSERT are staged
together, and a restrict-constraint violation at commit rolls both back. -/
def delete_country (db : DB) (country_id : Nat) (ri : RequestInfo) :
    DB × Except CrudErr (Option Country) :=
  match db.countries.find? (fun c => c.id == country_id) with
  | none => (db, .ok none)
  | some country =>
    let log := mkEventLog "DELETE" "country" country.id ri
    let staged : DB :=
      { db with
        countries := db.countries.filter fun c => !(c.id == country_id)
        event_logs := db.event_logs ++ [log] }
    match commitCheck staged with
    | some v => (db, .error (.integrity v))
    | none => (staged, .ok (some country))

/-- crud/state.py `create_state`: validate parent country exists, then code
uniqueness; insert the row and its CREATE event-log row. -/
def create_state (db : DB) (state_data : StateCreateRequest)
    (ri : RequestInfo) : DB × Except CrudErr State :=
  match validate_country_exists db state_data.country_id with
  | .error e => (db, .error e)
  | .ok _ =>
    match validate_state_code_unique db state_data.code none with
    | .error e => (db, .error e)
    | .ok _ =>
      let state : State :=
        { id := db.next_state_id, country_id := state_data.country_id,
          name := state_data.name, code := state_data.code }
      let log := mkEventLog "CREATE" "state" state.id ri
      let staged : DB :=
        { db with
          states := db.states ++ [state]
          event_logs := db.event_logs ++ [log]
          next_state_id := db.next_state_id + 1 }
      match commitCheck staged with
      | some v => (db, .error (.integrity v))
      | none => (staged, .ok state)

/-- crud/state.py `get_state`: raises `EntityNotFoundError` when absent. -/
def get_state (db : DB) (state_id : Nat) : Except CrudErr State :=
  match db.states.find? (fun s => s.id == state_id) with
  | some s => .ok s
  | none => .error (.entityNotFound "State" state_id)

/-- crud/state.py `get_states`: optional country filter, then offset/limit
pagination in store order. -/
def get_states (db : DB) (skip limit : Nat) (country_id : Option Nat) : List State :=
  let rows : List State := match country_id with
    | some cid => db.states.filter fun s => s.country_id == cid
    | none => db.states
  (rows.drop skip).take limit

/-- The field-by-field partial update of crud/state.py `update_state`. -/
def applyStateUpdate (u : StateUpdateRequest) (s : State) : State :=
  let s1 := match u.country_id with
    | some cid => { s with country_id := cid }
    | none => s
  let s2 := match u.name with
    | some n => { s1 with name := n }
    | none => s1
  match u.code with
  | some cd => { s2 with code := cd }
  | none => s2

/-- The conditional parent validation of crud/state.py `update_state`:
`validate_country_exists` runs only when the country id is supplied and
differs from the stored one. -/
def update_state_country_validation (db : DB)
    (state_data : StateUpdateRequest) (state : State) : Except CrudErr Unit :=
  match state_data.country_id with
  | some cid =>
    if cid != state.country_id then validate_country_exists db cid else .ok ()
  | none => .ok ()

/-- The conditional code validation of crud/state.py `update_state`:
`validate_state_code_unique` runs only when the code is supplied and differs
from the stored code. -/
def update_state_code_validation (db : DB) (state_id : Nat)
    (state_data : StateUpdateRequest) (state : State) : Except CrudErr Unit :=
  match state_data.code with
  | some newCode =>
    if newCode != state.code then
      validate_state_code_unique db newCode (some state_id)
    else .ok ()
  | none => .ok ()

/-- crud/state.py `update_state`: raises `EntityNotFoundError` when absent;
validates the new parent only when supplied and different, and code
uniqueness only when supplied and different. -/
def update_state (db : DB) (state_id : Nat) (state_data : StateUpdateRequest)
    (ri : RequestInfo) : DB × Except CrudErr State :=
  match db.states.find? (fun s => s.id == state_id) with
  | none => (db, .error (.entityNotFound "State" state_id))
  | some state =>
    match update_state_country_validation db state_data state with
    | .error e => (db, .error e)
    | .ok _ =>
      match update_state_code_validation db state_id state_data state with
      | .error e => (db, .error e)
      | .ok _ =>
        let updated := applyStateUpdate state_data state
        let log := mkEventLog "UPDATE" "state" updated.id ri
        let staged : DB :=
          { db with
            states := db.states.map fun s => if s.id == state_id then updated else s
            event_logs := db.event_logs ++ [log] }
        match commitCheck staged with
        | some v => (db, .error (.integrity v))
        | none => (staged, .ok updated)

/-- crud/state.py `delete_state`: raises `EntityNotFoundError` when absent;
no pre-check for child cities — the DELETE and the event-log INSERT are
staged together, and a restrict-constraint violation at commit rolls both
back. -/
def delete_state (db : DB) (state_id : Nat) (ri : RequestInfo) :
    DB × Except CrudErr State :=
  match db.states.find? (fun s => s.id == state_id) with
  | none => (db, .error (.entityNotFound "State" state_id))
  | some state =>
    let log := mkEventLog "DELETE" "state" state.id ri
    let staged : DB :=
      { db with
        states := db.states.filter fun s => !(s.id == state_id)
        event_logs := db.event_logs ++ [log] }
    match commitCheck staged with
    | some v => (db, .error (.integrity v))
    | none => (staged, .ok state)

/-- crud/city.py `create_city`: validate parent state exists, then active
code uniqueness; insert the row and its CREATE event-log row. -/
def create_city (db : DB) (city_data : CityCreateRequest)
    (ri : RequestInfo) : DB × Except CrudErr City :=
  match validate_state_exists db city_data.state_id with
  | .error e => (db, .error e)
  | .ok _ =>
    match validate_city_code_unique db city_data.code none with
    | .error e => (db, .error e)
    | .ok _ =>
      let city : City :=
        { id := db.next_city_id, state_id := city_data.state_id,
          name := city_data.name, code := city_data.code,
          is_active := city_data.is_active }
      let log := mkEventLog "CREATE" "city" city.id ri
      let staged : DB :=
        { db with
          cities := db.cities ++ [city]
          event_logs := db.event_logs ++ [log]
          next_city_id := db.next_city_id + 1 }
      match commitCheck staged with
      | some v => (db, .error (.integrity v))
      | none => (staged, .ok city)

/-- crud/city.py `get_city`: an inactive row counts as absent unless
`include_inactive`; raises `EntityNotFoundError` when absent. -/
def get_city (db : DB) (city_id : Nat) (include_inactive : Bool) :
    Except CrudErr City :=
  match db.cities.find? (fun c => c.id == city_id && (include_inactive || c.is_active)) with
  | some c => .ok c
  | none => .error (.entityNotFound "City" city_id)

/-- crud/city.py `list_cities`: activity filter, then offset/limit
pagination in store order. -/
def list_cities (db : DB) (skip limit : Nat) (include_inactive : Bool) : List City :=
  (((db.cities.filter fun c => include_inactive || c.is_active).drop skip).take limit)

/-- crud/city.py `list_cities_by_state`: state filter and activity filter,
then offset/limit pagination in store order. -/
def list_cities_by_state (db : DB) (state_id : Nat) (skip limit : Nat)
    (include_inactive : Bool) : List City :=
  (((db.cities.filter fun c =>
    c.state_id == state_id && (include_inactive || c.is_active)).drop skip).take limit)

/-- The field-by-field partial update of crud/city.py `update_city`. -/
def applyCityUpdate (u : CityUpdateRequest) (c : City) : City :=
  let c1 := match u.name with
    | some n => { c with name := n }
    | none => c
  let c2 := match u.code with
    | some cd => { c1 with code := cd }
    | none => c1
  match u.is_active with
  | some a => { c2 with is_active := a }
  | none => c2

/-- The conditional code validation of crud/city.py `update_city`:
`validate_city_code_unique` runs only when the code is supplied and differs
from the stored code — in particular a reactivation (`is_active` false→true
with no code supplied) is not validated. -/
def update_city_code_validation (db : DB) (city_id : Nat)
    (city_data : CityUpdateRequest) (city : City) : Except CrudErr Unit :=
  match city_data.code with
  | some newCode =>
    if newCode != city.code then
      validate_city_code_unique db newCode (some city_id)
    else .ok ()
  | none => .ok ()

/-- crud/city.py `update_city`: the target is looked up under the activity
visibility rule; code uniqueness is validated only when the code is supplied
and differs. -/
def update_city (db : DB) (city_id : Nat) (city_data : CityUpdateRequest)
    (ri : RequestInfo) (include_inactive : Bool) : DB × Except CrudErr City :=
  match db.cities.find? (fun c => c.id == city_id && (include_inactive || c.is_active)) with
  | none => (db, .error (.entityNotFound "City" city_id))
  | some city =>
    match update_city_code_validation db city_id city_data city with
    | .error e => (db, .error e)
    | .ok _ =>
      let updated := applyCityUpdate city_data city
      let log := mkEventLog "UPDATE" "city" updated.id ri
      let staged : DB :=
        { db with
          cities := db.cities.map fun c => if c.id == city_id then updated else c
          event_logs := db.event_logs ++ [log] }
      match commitCheck staged with
      | some v => (db, .error (.integrity v))
      | none => (staged, .ok updated)

/-- crud/city.py `delete_city`: the target is looked up under the activity
visibility rule; the DELETE event-log row is assembled before the row is
removed (capturing the id) and both are committed together. -/
def delete_city (db : DB) (city_id : Nat) (ri : RequestInfo)
    (include_inactive : Bool) : DB × Except CrudErr City :=
  match db.cities.find? (fun c => c.id == city_id && (include_inactive || c.is_active)) with
  | none => (db, .error (.entityNotFound "City" city_id))
  | some city =>
    let log := mkEventLog "DELETE" "city" city.id ri
    let staged : DB :=
      { db with
        cities := db.cities.filter fun c => !(c.id == city_id)
        event_logs := db.event_logs ++ [log] }
    match commitCheck staged with
    | some v => (db, .error (.integrity v))
    | none => (staged, .ok city)

/-- Sample request metadata for concrete instances. -/
def ri0 : RequestInfo :=
  { method := "POST", path := "/x", body := some "{}",
    ip_address := some "127.0.0.1", user_id := none, status_code := some 201 }

/-- The empty store (autoincrement counters start at 1). -/
def emptyDB : DB :=
  { countries := [], states := [], cities := [], event_logs := [],
    next_country_id := 1, next_state_id := 1, next_city_id := 1 }

/-- Store with one country. -/
def dbOneCountry : DB :=
  { emptyDB with
    countries := [{ id := 1, name := "Japan", code := "JP" }]
    next_country_id := 2 }

/-- Store with one country and one state. -/
def dbOneState : DB :=
  { dbOneCountry with
    states := [{ id := 1, country_id := 1, name := "Tokyo", code := "JP-13" }]
    next_state_id := 2 }

/-- Store with one country, one state and one active city. -/
def dbOneActiveCity : DB :=
  { dbOneState with
    cities := [{ id := 1, state_id := 1, name := "Minato", code := "131016", is_active := true }]
    next_city_id := 2 }

/-- Store with an active city and an inactive city sharing code "131016"
(reachable by creating the inactive one first, then the active one). -/
def dbSharedCode : DB :=
  { dbOneState with
    cities :=
      [{ id := 1, state_id := 1, name := "Tsukui", code := "131016", is_active := false },
       { id := 2, state_id := 1, name := "Minato", code := "131016", is_active := true }]
    next_city_id := 3 }

/-- Store with one country, one state and one inactive city. -/
def dbOneInactiveCity : DB :=
  { dbOneState with
    cities := [{ id := 1, state_id := 1, name := "Tsukui", code := "143626", is_active := false }]
    next_city_id := 2 }

/-- Stores reached by inserting three countries in sequence from the empty
store. -/
def dbStep1 : DB := (create_country emptyDB { name := "Alpha", code := "AA" } ri0).1

def dbStep2 : DB := (create_country dbStep1 { name := "Bravo", code := "BB" } ri0).1

def dbStep3 : DB := (create_country dbStep2 { name := "Charlie", code := "CC" } ri0).1

/-- The store after creating country "JP" from the empty store. -/
def dbAfterJP : DB := (create_country emptyDB { name := "Japan", code := "JP" } ri0).1

theorem hasDup_eq_false_iff (l : List String) : hasDup l = false ↔ l.Nodup := by
  induction l with
  | nil => simp [hasDup]
  | cons c cs ih =>
    simp only [hasDup, Bool.or_eq_false_iff, List.nodup_cons, ih]
    constructor
    · rintro ⟨h1, h2⟩
      refine ⟨fun hm => ?_, h2⟩
      simp_all
    · rintro ⟨h1, h2⟩
      refine ⟨?_, h2⟩
      cases hcc : cs.contains c with
      | false => rfl
      | true => exact absurd (List.elem_iff.mp hcc) h1

theorem hasDup_false_of_sublist (l1 l2 : List String) (hs : List.Sublist l1 l2)
    (h : hasDup l2 = false) : hasDup l1 = false :=
  (hasDup_eq_false_iff l1).mpr (((hasDup_eq_false_iff l2).mp h).sublist hs)

theorem hasDup_true_of_middle_mem (l1 l2 : List String) (a : String)
    (h : a ∈ l1 ∨ a ∈ l2) : hasDup (l1 ++ a :: l2) = true := by
  cases hd : hasDup (l1 ++ a :: l2) with
  | true => rfl
  | false =>
    have hn := (hasDup_eq_false_iff _).mp hd
    rw [List.nodup_middle, List.nodup_cons] at hn
    exact absurd (List.mem_append.mpr h) hn.1

theorem commitCheck_eq_none_iff (db : DB) : commitCheck db = none ↔
    hasDup (db.countries.map fun c => c.code) = false ∧
    hasDup (db.states.map fun s => s.code) = false ∧
    hasDup (activeCityCodes db.cities) = false ∧
    (db.states.any fun s => !(db.countries.any fun c => c.id == s.country_id)) = false ∧
    (db.cities.any fun ci => !(db.states.any fun s => s.id == ci.state_id)) = false := by
  unfold commitCheck
  split_ifs with h1 h2 h3 h4 h5 <;> simp_all

theorem find?_by_id_of_nodup {α : Type} (f : α → Nat) (l : List α) (a : α)
    (hn : (l.map f).Nodup) (ha : a ∈ l) :
    l.find? (fun x => f x == f a) = some a := by
  induction l with
  | nil => cases ha
  | cons b t ih =>
    rw [List.map_cons, List.nodup_cons] at hn
    rcases List.mem_cons.mp ha with rfl | hat
    · simp [List.find?_cons]
    · have hne : f b ≠ f a := by
        intro hEq
        exact hn.1 (hEq ▸ List.mem_map_of_mem f hat)
      rw [List.find?_cons]
      have : (f b == f a) = false := by simpa using hne
      rw [this]
      exact ih hn.2 hat

theorem create_country_ok_spec (db db2 : DB) (rq : CountryCreateRequest)
    (ri : RequestInfo) (c : Country)
    (h : create_country db rq ri = (db2, .ok c)) :
    c = { id := db.next_country_id, name := rq.name, code := rq.code } ∧
    db2.countries = db.countries ++ [c] ∧
    db2.states = db.states ∧
    db2.cities = db.cities ∧
    db2.event_logs = db.event_logs ++ [mkEventLog "CREATE" "country" c.id ri] ∧
    validate_country_code_unique db rq.code none = .ok () := by
  unfold create_country at h
  split at h
  next e hval => simp at h
  next u hval =>
    dsimp only at h
    split at h
    next v hcommit => simp at h
    next hcommit =>
      simp only [Prod.mk.injEq, Except.ok.injEq] at h
      obtain ⟨rfl, rfl⟩ := h
      exact ⟨rfl, rfl, rfl, rfl, rfl, hval⟩

theorem update_country_ok_spec (db db2 : DB) (country_id : Nat)
    (u : CountryUpdateRequest) (ri : RequestInfo) (c : Country)
    (h : update_country db country_id u ri = (db2, .ok (some c))) :
    ∃ old, db.countries.find? (fun x => x.id == country_id) = some old ∧
      c = applyCountryUpdate u old ∧
      db2.countries = (db.countries.map fun x => if x.id == country_id then c else x) ∧
      db2.states = db.states ∧
      db2.cities = db.cities ∧
      db2.event_logs = db.event_logs ++ [mkEventLog "UPDATE" "country" c.id ri] := by
  unfold update_country at h
  split at h
  next hfind => simp at h
  next old hfind =>
    dsimp only at h
    split at h
    next e hval => simp at h
    next w hval =>
      split at h
      next v hcommit => simp at h
      next hcommit =>
        simp only [Prod.mk.injEq, Except.ok.injEq, Option.some.injEq] at h
        obtain ⟨rfl, rfl⟩ := h
        exact ⟨old, hfind, rfl, rfl, rfl, rfl, rfl⟩

theorem delete_country_ok_spec (db db2 : DB) (country_id : Nat)
    (ri : RequestInfo) (c : Country)
    (h : delete_country db country_id ri = (db2, .ok (some c))) :
    db.countries.find? (fun x => x.id == country_id) = some c ∧
    db2.countries = (db.countries.filter fun x => !(x.id == country_id)) ∧
    db2.states = db.states ∧
    db2.cities = db.cities ∧
    db2.event_logs = db.event_logs ++ [mkEventLog "DELETE" "country" c.id ri] := by
  unfold delete_country at h
  split at h
  next hfind => simp at h
  next old hfind =>
    dsimp only at h
    split at h
    next v hcommit => simp at h
    next hcommit =>
      simp only [Prod.mk.injEq, Except.ok.injEq, Option.some.injEq] at h
      obtain ⟨rfl, rfl⟩ := h
      exact ⟨hfind, rfl, rfl, rfl, rfl⟩

theorem create_state_ok_spec (db db2 : DB) (rq : StateCreateRequest)
    (ri : RequestInfo) (s : State)
    (h : create_state db rq ri = (db2, .ok s)) :
    s = { id := db.next_state_id, country_id := rq.country_id,
          name := rq.name, code := rq.code } ∧
    db2.states = db.states ++ [s] ∧
    db2.countries = db.countries ∧
    db2.cities = db.cities ∧
    db2.event_logs = db.event_logs ++ [mkEventLog "CREATE" "state" s.id ri] ∧
    validate_country_exists db rq.country_id = .ok () ∧
    validate_state_code_unique db rq.code none = .ok () := by
  unfold create_state at h
  split at h
  next e hval1 => simp at h
  next u1 hval1 =>
    split at h
    next e hval2 => simp at h
    next u2 hval2 =>
      dsimp only at h
      split at h
      next v hcommit => simp at h
      next hcommit =>
        simp only [Prod.mk.injEq, Except.ok.injEq] at h
        obtain ⟨rfl, rfl⟩ := h
        exact ⟨rfl, rfl, rfl, rfl, rfl, hval1, hval2⟩

theorem update_state_ok_spec (db db2 : DB) (state_id : Nat)
    (u : StateUpdateRequest) (ri : RequestInfo) (s : State)
    (h : update_state db state_id u ri = (db2, .ok s)) :
    ∃ old, db.states.find? (fun x => x.id == state_id) = some old ∧
      s = applyStateUpdate u old ∧
      db2.states = (db.states.map fun x => if x.id == state_id then s else x) ∧
      db2.countries = db.countries ∧
      db2.cities = db.cities ∧
      db2.event_logs = db.event_logs ++ [mkEventLog "UPDATE" "state" s.id ri] := by
  unfold update_state at h
  split at h
  next hfind => simp at h
  next old hfind =>
    dsimp only at h
    split at h
    next e hval1 => simp at h
    next u1 hval1 =>
      split at h
      next e hval2 => simp at h
      next u2 hval2 =>
        split at h
        next v hcommit => simp at h
        next hcommit =>
          simp only [Prod.mk.injEq, Except.ok.injEq] at h
          obtain ⟨rfl, rfl⟩ := h
          exact ⟨old, hfind, rfl, rfl, rfl, rfl, rfl⟩

theorem delete_state_ok_spec (db db2 : DB) (state_id : Nat)
    (ri : RequestInfo) (s : State)
    (h : delete_state db state_id ri = (db2, .ok s)) :
    db.states.find? (fun x => x.id == state_id) = some s ∧
    db2.states = (db.states.filter fun x => !(x.id == state_id)) ∧
    db2.countries = db.countries ∧
    db2.cities = db.cities ∧
    db2.event_logs = db.event_logs ++ [mkEventLog "DELETE" "state" s.id ri] := by
  unfold delete_state at h
  split at h
  next hfind => simp at h
  next old hfind =>
    dsimp only at h
    split at h
    next v hcommit => simp at h
    next hcommit =>
      simp only [Prod.mk.injEq, Except.ok.injEq] at h
      obtain ⟨rfl, rfl⟩ := h
      exact ⟨hfind, rfl, rfl, rfl, rfl⟩

theorem create_city_ok_spec (db db2 : DB) (rq : CityCreateRequest)
    (ri : RequestInfo) (c : City)
    (h : create_city db rq ri = (db2, .ok c)) :
    c = { id := db.next_city_id, state_id := rq.state_id, name := rq.name,
          code := rq.code, is_active := rq.is_active } ∧
    db2.cities = db.cities ++ [c] ∧
    db2.countries = db.countries ∧
    db2.states = db.states ∧
    db2.event_logs = db.event_logs ++ [mkEventLog "CREATE" "city" c.id ri] ∧
    validate_state_exists db rq.state_id = .ok () ∧
    validate_city_code_unique db rq.code none = .ok () := by
  unfold create_city at h
  split at h
  next e hval1 => simp at h
  next u1 hval1 =>
    split at h
    next e hval2 => simp at h
    next u2 hval2 =>
      dsimp only at h
      split at h
      next v hcommit => simp at h
      next hcommit =>
        simp only [Prod.mk.injEq, Except.ok.injEq] at h
        obtain ⟨rfl, rfl⟩ := h
        exact ⟨rfl, rfl, rfl, rfl, rfl, hval1, hval2⟩

theorem update_city_ok_spec (db db2 : DB) (city_id : Nat)
    (u : CityUpdateRequest) (ri : RequestInfo) (inc : Bool) (c : City)
    (h : update_city db city_id u ri inc = (db2, .ok c)) :
    ∃ old, db.cities.find? (fun x => x.id == city_id && (inc || x.is_active)) = some old ∧
      c = applyCityUpdate u old ∧
      db2.cities = (db.cities.map fun x => if x.id == city_id then c else x) ∧
      db2.countries = db.countries ∧
      db2.states = db.states ∧
      db2.event_logs = db.event_logs ++ [mkEventLog "UPDATE" "city" c.id ri] := by
  unfold update_city at h
  split at h
  next hfind => simp at h
  next old hfind =>
    dsimp only at h
    split at h
    next e hval => simp at h
    next w hval =>
      split at h
      next v hcommit => simp at h
      next hcommit =>
        simp only [Prod.mk.injEq, Except.ok.injEq] at h
        obtain ⟨rfl, rfl⟩ := h
        exact ⟨old, hfind, rfl, rfl, rfl, rfl, rfl⟩

theorem delete_city_ok_spec (db db2 : DB) (city_id : Nat)
    (ri : RequestInfo) (inc : Bool) (c : City)
    (h : delete_city db city_id ri inc = (db2, .ok c)) :
    db.cities.find? (fun x => x.id == city_id && (inc || x.is_active)) = some c ∧
    db2.cities = (db.cities.filter fun x => !(x.id == city_id)) ∧
    db2.countries = db.countries ∧
    db2.states = db.states ∧
    db2.event_logs = db.event_logs ++ [mkEventLog "DELETE" "city" c.id ri] := by
  unfold delete_city at h
  split at h
  next hfind => simp at h
  next old hfind =>
    dsimp only at h
    split at h
    next v hcommit => simp at h
    next hcommit =>
      simp only [Prod.mk.injEq, Except.ok.injEq] at h
      obtain ⟨rfl, rfl⟩ := h
      exact ⟨hfind, rfl, rfl, rfl, rfl⟩

end GeoApi

namespace GeoApi

/-- C3: for every entity type (country, state, city), every successful
Create, Update, or Delete appends exactly one event-log row to the store,
with `entity_type` naming the entity, `event_type` CREATE / UPDATE / DELETE
respectively, and `entity_id` equal to the affected row's id — for DELETE,
the id of the row as read before removal (the returned pre-delete row, which
`Get` still finds in the pre-state). -/
theorem c3_one_event_log_per_success :
    (∀ db db2 rq ri c, create_country db rq ri = (db2, .ok c) →
      db2.event_logs = db.event_logs ++ [mkEventLog "CREATE" "country" c.id ri]) ∧
    (∀ db db2 id u ri c, update_country db id u ri = (db2, .ok (some c)) →
      db2.event_logs = db.event_logs ++ [mkEventLog "UPDATE" "country" c.id ri]) ∧
    (∀ db db2 id ri c, delete_country db id ri = (db2, .ok (some c)) →
      db2.event_logs = db.event_logs ++ [mkEventLog "DELETE" "country" c.id ri] ∧
      get_country db id = some c) ∧
    (∀ db db2 rq ri s, create_state db rq ri = (db2, .ok s) →
      db2.event_logs = db.event_logs ++ [mkEventLog "CREATE" "state" s.id ri]) ∧
    (∀ db db2 id u ri s, update_state db id u ri = (db2, .ok s) →
      db2.event_logs = db.event_logs ++ [mkEventLog "UPDATE" "state" s.id ri]) ∧
    (∀ db db2 id ri s, delete_state db id ri = (db2, .ok s) →
      db2.event_logs = db.event_logs ++ [mkEventLog "DELETE" "state" s.id ri] ∧
      get_state db id = .ok s) ∧
    (∀ db db2 rq ri c, create_city db rq ri = (db2, .ok c) →
      db2.event_logs = db.event_logs ++ [mkEventLog "CREATE" "city" c.id ri]) ∧
    (∀ db db2 id u ri inc c, update_city db id u ri inc = (db2, .ok c) →
      db2.event_logs = db.event_logs ++ [mkEventLog "UPDATE" "city" c.id ri]) ∧
    (∀ db db2 id ri inc c, delete_city db id ri inc = (db2, .ok c) →
      db2.event_logs = db.event_logs ++ [mkEventLog "DELETE" "city" c.id ri] ∧
      get_city db id inc = .ok c) := by
  refine ⟨?_, ?_, ?_, ?_, ?_, ?_, ?_, ?_, ?_⟩
  · intro db db2 rq ri c h
    obtain ⟨-, -, -, -, hlog, -⟩ := create_country_ok_spec db db2 rq ri c h
    exact hlog
  · intro db db2 id u ri c h
    obtain ⟨old, -, -, -, -, -, hlog⟩ := update_country_ok_spec db db2 id u ri c h
    exact hlog
  · intro db db2 id ri c h
    obtain ⟨hfind, -, -, -, hlog⟩ := delete_country_ok_spec db db2 id ri c h
    exact ⟨hlog, hfind⟩
  · intro db db2 rq ri s h
    obtain ⟨-, -, -, -, hlog, -, -⟩ := create_state_ok_spec db db2 rq ri s h
    exact hlog
  · intro db db2 id u ri s h
    obtain ⟨old, -, -, -, -, -, hlog⟩ := update_state_ok_spec db db2 id u ri s h
    exact hlog
  · intro db db2 id ri s h
    obtain ⟨hfind, -, -, -, hlog⟩ := delete_state_ok_spec db db2 id ri s h
    refine ⟨hlog, ?_⟩
    unfold get_state
    rw [hfind]
  · intro db db2 rq ri c h
    obtain ⟨-, -, -, -, hlog, -, -⟩ := create_city_ok_spec db db2 rq ri c h
    exact hlog
  · intro db db2 id u ri inc c h
    obtain ⟨old, -, -, -, -, -, hlog⟩ := update_city_ok_spec db db2 id u ri inc c h
    exact hlog
  · intro db db2 id ri inc c h
    obtain ⟨hfind, -, -, -, hlog⟩ := delete_city_ok_spec db db2 id ri inc c h
    refine ⟨hlog, ?_⟩
    unfold get_city
    rw [hfind]

/-- Witness for C3: creating a country in the empty store appends exactly
the matching CREATE event-log row. -/
theorem c3_witness :
    (create_country emptyDB { name := "Japan", code := "JP" } ri0).1.event_logs =
      emptyDB.event_logs ++ [mkEventLog "CREATE" "country" 1 ri0] := by
  have h : create_country emptyDB { name := "Japan", code := "JP" } ri0 =
      ((create_country emptyDB { name := "Japan", code := "JP" } ri0).1,
        .ok { id := 1, name := "Japan", code := "JP" }) := rfl
  exact c3_one_event_log_per_success.1 emptyDB _ _ ri0 _ h

end GeoApi

namespace GeoApi

/-- C10: not-found signaling differs by entity at the CRUD interface — for
an id with no corresponding row, the country operations return `none`
(never an `EntityNotFoundError`), while the state and city get / update /
delete operations raise `EntityNotFoundError`. -/
theorem c10_not_found_semantics (db : DB) (id : Nat)
    (u : CountryUpdateRequest) (us : StateUpdateRequest) (uc : CityUpdateRequest)
    (ri : RequestInfo) (inc : Bool)
    (hC : ∀ x ∈ db.countries, x.id ≠ id)
    (hS : ∀ x ∈ db.states, x.id ≠ id)
    (hCi : ∀ x ∈ db.cities, x.id ≠ id) :
    get_country db id = none ∧
    update_country db id u ri = (db, .ok none) ∧
    delete_country db id ri = (db, .ok none) ∧
    get_state db id = .error (.entityNotFound "State" id) ∧
    update_state db id us ri = (db, .error (.entityNotFound "State" id)) ∧
    delete_state db id ri = (db, .error (.entityNotFound "State" id)) ∧
    get_city db id inc = .error (.entityNotFound "City" id) ∧
    update_city db id uc ri inc = (db, .error (.entityNotFound "City" id)) ∧
    delete_city db id ri inc = (db, .error (.entityNotFound "City" id)) := by
  have hCf : db.countries.find? (fun x => x.id == id) = none :=
    List.find?_eq_none.mpr (fun x hx => by simp [hC x hx])
  have hSf : db.states.find? (fun x => x.id == id) = none :=
    List.find?_eq_none.mpr (fun x hx => by simp [hS x hx])
  have hCif : db.cities.find? (fun x => x.id == id && (inc || x.is_active)) = none :=
    List.find?_eq_none.mpr (fun x hx => by simp [hCi x hx])
  refine ⟨?_, ?_, ?_, ?_, ?_, ?_, ?_, ?_, ?_⟩
  · exact hCf
  · unfold update_country
    rw [hCf]
  · unfold delete_country
    rw [hCf]
  · unfold get_state
    rw [hSf]
  · unfold update_state
    rw [hSf]
  · unfold delete_state
    rw [hSf]
  · unfold get_city
    rw [hCif]
  · unfold update_city
    rw [hCif]
  · unfold delete_city
    rw [hCif]

/-- Witness for C10: id 99 is absent from the one-country store; every
lookup misses in its entity-specific way. -/
theorem c10_witness :
    get_country dbOneCountry 99 = none ∧
    update_country dbOneCountry 99 { name := none, code := none } ri0 =
      (dbOneCountry, .ok none) ∧
    delete_country dbOneCountry 99 ri0 = (dbOneCountry, .ok none) ∧
    get_state dbOneCountry 99 = .error (.entityNotFound "State" 99) ∧
    update_state dbOneCountry 99 { country_id := none, name := none, code := none } ri0 =
      (dbOneCountry, .error (.entityNotFound "State" 99)) ∧
    delete_state dbOneCountry 99 ri0 =
      (dbOneCountry, .error (.entityNotFound "State" 99)) ∧
    get_city dbOneCountry 99 false = .error (.entityNotFound "City" 99) ∧
    update_city dbOneCountry 99 { name := none, code := none, is_active := none } ri0 false =
      (dbOneCountry, .error (.entityNotFound "City" 99)) ∧
    delete_city dbOneCountry 99 ri0 false =
      (dbOneCountry, .error (.entityNotFound "City" 99)) :=
  c10_not_found_semantics dbOneCountry 99 _ _ _ ri0 false
    (by decide) (by decide) (by decide)

end GeoApi

namespace GeoApi

/-- C4: for every Create or Update on country, state or city, when a domain
validator fails the operation returns the validator's error unchanged and
the store it hands back is exactly the input store — no entity-table write
and no event-log write happened. -/
theorem c4_validator_failure_no_write :
    (∀ db rq ri e, validate_country_code_unique db rq.code none = .error e →
      create_country db rq ri = (db, .error e)) ∧
    (∀ db rq ri e, validate_country_exists db rq.country_id = .error e →
      create_state db rq ri = (db, .error e)) ∧
    (∀ db rq ri e, validate_country_exists db rq.country_id = .ok () →
      validate_state_code_unique db rq.code none = .error e →
      create_state db rq ri = (db, .error e)) ∧
    (∀ db rq ri e, validate_state_exists db rq.state_id = .error e →
      create_city db rq ri = (db, .error e)) ∧
    (∀ db rq ri e, validate_state_exists db rq.state_id = .ok () →
      validate_city_code_unique db rq.code none = .error e →
      create_city db rq ri = (db, .error e)) ∧
    (∀ db id u ri e old, db.countries.find? (fun x => x.id == id) = some old →
      update_country_code_validation db id u old = .error e →
      update_country db id u ri = (db, .error e)) ∧
    (∀ db id u ri e old, db.states.find? (fun x => x.id == id) = some old →
      update_state_country_validation db u old = .error e →
      update_state db id u ri = (db, .error e)) ∧
    (∀ db id u ri e old, db.states.find? (fun x => x.id == id) = some old →
      update_state_country_validation db u old = .ok () →
      update_state_code_validation db id u old = .error e →
      update_state db id u ri = (db, .error e)) ∧
    (∀ db id u ri inc e old,
      db.cities.find? (fun x => x.id == id && (inc || x.is_active)) = some old →
      update_city_code_validation db id u old = .error e →
      update_city db id u ri inc = (db, .error e)) := by
  refine ⟨?_, ?_, ?_, ?_, ?_, ?_, ?_, ?_, ?_⟩
  · intro db rq ri e hv
    unfold create_country
    rw [hv]
  · intro db rq ri e hv
    unfold create_state
    rw [hv]
  · intro db rq ri e hv1 hv2
    unfold create_state
    rw [hv1, hv2]
  · intro db rq ri e hv
    unfold create_city
    rw [hv]
  · intro db rq ri e hv1 hv2
    unfold create_city
    rw [hv1, hv2]
  · intro db id u ri e old hfind hv
    unfold update_country
    rw [hfind]
    dsimp only
    rw [hv]
  · intro db id u ri e old hfind hv
    unfold update_state
    rw [hfind]
    dsimp only
    rw [hv]
  · intro db id u ri e old hfind hv1 hv2
    unfold update_state
    rw [hfind]
    dsimp only
    rw [hv1]
    dsimp only
    rw [hv2]
  · intro db id u ri inc e old hfind hv
    unfold update_city
    rw [hfind]
    dsimp only
    rw [hv]

/-- Witness for C4: creating a second country with the taken code "JP"
fails with the validator's DuplicateCode error and leaves the store as it
was. -/
theorem c4_witness :
    validate_country_code_unique dbOneCountry "JP" none =
      .error (.duplicateCode "Country" "JP") ∧
    create_country dbOneCountry { name := "Japan2", code := "JP" } ri0 =
      (dbOneCountry, .error (.duplicateCode "Country" "JP")) := by
  refine ⟨rfl, ?_⟩
  exact c4_validator_failure_no_write.1 dbOneCountry
    { name := "Japan2", code := "JP" } ri0 (.duplicateCode "Country" "JP") rfl

end GeoApi

namespace GeoApi

theorem applyCountryUpdate_fields (u : CountryUpdateRequest) (c : Country) :
    (applyCountryUpdate u c).id = c.id ∧
    (applyCountryUpdate u c).name = u.name.getD c.name ∧
    (applyCountryUpdate u c).code = u.code.getD c.code := by
  unfold applyCountryUpdate
  cases hn : u.name <;> cases hc : u.code <;> simp

theorem applyStateUpdate_fields (u : StateUpdateRequest) (s : State) :
    (applyStateUpdate u s).id = s.id ∧
    (applyStateUpdate u s).country_id = u.country_id.getD s.country_id ∧
    (applyStateUpdate u s).name = u.name.getD s.name ∧
    (applyStateUpdate u s).code = u.code.getD s.code := by
  unfold applyStateUpdate
  cases hi : u.country_id <;> cases hn : u.name <;> cases hc : u.code <;> simp

theorem applyCityUpdate_fields (u : CityUpdateRequest) (c : City) :
    (applyCityUpdate u c).id = c.id ∧
    (applyCityUpdate u c).state_id = c.state_id ∧
    (applyCityUpdate u c).name = u.name.getD c.name ∧
    (applyCityUpdate u c).code = u.code.getD c.code ∧
    (applyCityUpdate u c).is_active = u.is_active.getD c.is_active := by
  unfold applyCityUpdate
  cases hn : u.name <;> cases hc : u.code <;> cases ha : u.is_active <;> simp

theorem mem_map_replace_of_ne {α : Type} [DecidableEq α] (f : α → Nat) (l : List α)
    (id : Nat) (r : α) (x : α) (hx : x ∈ l) (hne : f x ≠ id) :
    x ∈ l.map fun y => if f y == id then r else y := by
  refine List.mem_map.mpr ⟨x, hx, ?_⟩
  simp [hne]

/-- C7: updates are PATCH-like — on every successful update of a country,
state or city, the resulting row keeps the stored value of every field not
supplied in the request and takes the supplied value of every field that is
present, and rows with other ids survive into the new store. -/
theorem c7_partial_update_semantics :
    (∀ db db2 id u ri c old, update_country db id u ri = (db2, .ok (some c)) →
      get_country db id = some old →
      c.id = old.id ∧ c.name = u.name.getD old.name ∧ c.code = u.code.getD old.code ∧
      ∀ x ∈ db.countries, x.id ≠ id → x ∈ db2.countries) ∧
    (∀ db db2 id u ri s old, update_state db id u ri = (db2, .ok s) →
      get_state db id = .ok old →
      s.id = old.id ∧ s.country_id = u.country_id.getD old.country_id ∧
      s.name = u.name.getD old.name ∧ s.code = u.code.getD old.code ∧
      ∀ x ∈ db.states, x.id ≠ id → x ∈ db2.states) ∧
    (∀ db db2 id u ri inc c old, update_city db id u ri inc = (db2, .ok c) →
      get_city db id inc = .ok old →
      c.id = old.id ∧ c.state_id = old.state_id ∧ c.name = u.name.getD old.name ∧
      c.code = u.code.getD old.code ∧ c.is_active = u.is_active.getD old.is_active ∧
      ∀ x ∈ db.cities, x.id ≠ id → x ∈ db2.cities) := by
  refine ⟨?_, ?_, ?_⟩
  · intro db db2 id u ri c old h hget
    obtain ⟨old2, hfind, hc, hcs, -, -, -⟩ := update_country_ok_spec db db2 id u ri c h
    have hold : old2 = old := by
      unfold get_country at hget
      rw [hfind] at hget
      exact Option.some.inj hget
    subst hold
    obtain ⟨h1, h2, h3⟩ := applyCountryUpdate_fields u old2
    refine ⟨hc ▸ h1, hc ▸ h2, hc ▸ h3, ?_⟩
    intro x hx hne
    rw [hcs]
    exact mem_map_replace_of_ne Country.id db.countries id c x hx hne
  · intro db db2 id u ri s old h hget
    obtain ⟨old2, hfind, hc, hcs, -, -, -⟩ := update_state_ok_spec db db2 id u ri s h
    have hold : old2 = old := by
      unfold get_state at hget
      rw [hfind] at hget
      exact Except.ok.inj hget
    subst hold
    obtain ⟨h1, h2, h3, h4⟩ := applyStateUpdate_fields u old2
    refine ⟨hc ▸ h1, hc ▸ h2, hc ▸ h3, hc ▸ h4, ?_⟩
    intro x hx hne
    rw [hcs]
    exact mem_map_replace_of_ne State.id db.states id s x hx hne
  · intro db db2 id u ri inc c old h hget
    obtain ⟨old2, hfind, hc, hcs, -, -, -⟩ := update_city_ok_spec db db2 id u ri inc c h
    have hold : old2 = old := by
      unfold get_city at hget
      rw [hfind] at hget
      exact Except.ok.inj hget
    subst hold
    obtain ⟨h1, h2, h3, h4, h5⟩ := applyCityUpdate_fields u old2
    refine ⟨hc ▸ h1, hc ▸ h2, hc ▸ h3, hc ▸ h4, hc ▸ h5, ?_⟩
    intro x hx hne
    rw [hcs]
    exact mem_map_replace_of_ne City.id db.cities id c x hx hne

/-- Witness for C7: updating only the name of the stored country keeps its
code. -/
theorem c7_witness :
    ((update_country dbOneCountry 1 { name := some "Nippon", code := none } ri0).2 =
      .ok (some { id := 1, name := "Nippon", code := "JP" })) ∧
    ({ id := 1, name := "Nippon", code := "JP" } : Country).code =
      (none : Option String).getD ({ id := 1, name := "Japan", code := "JP" } : Country).code := by
  have h := (c7_partial_update_semantics.1 dbOneCountry
    (update_country dbOneCountry 1 { name := some "Nippon", code := none } ri0).1 1
    { name := some "Nippon", code := none } ri0
    { id := 1, name := "Nippon", code := "JP" }
    { id := 1, name := "Japan", code := "JP" } rfl rfl)
  exact ⟨rfl, h.2.2.1⟩

end GeoApi

namespace GeoApi

/-- C8: Create followed by Get round-trips — for every input accepted by
create, getting the created id from the resulting store returns a row whose
non-generated fields equal the input (city read with the inactive-inclusive
flag, since an inactive creation is hidden from the default read). The
hypothesis says the autoincrement counter is fresh, which every store
reachable from `emptyDB` satisfies. -/
theorem c8_create_then_get_round_trip :
    (∀ db db2 rq ri c, (∀ x ∈ db.countries, x.id ≠ db.next_country_id) →
      create_country db rq ri = (db2, .ok c) →
      get_country db2 c.id = some c ∧ c.name = rq.name ∧ c.code = rq.code) ∧
    (∀ db db2 rq ri s, (∀ x ∈ db.states, x.id ≠ db.next_state_id) →
      create_state db rq ri = (db2, .ok s) →
      get_state db2 s.id = .ok s ∧ s.country_id = rq.country_id ∧
      s.name = rq.name ∧ s.code = rq.code) ∧
    (∀ db db2 rq ri c, (∀ x ∈ db.cities, x.id ≠ db.next_city_id) →
      create_city db rq ri = (db2, .ok c) →
      get_city db2 c.id true = .ok c ∧ c.state_id = rq.state_id ∧
      c.name = rq.name ∧ c.code = rq.code ∧ c.is_active = rq.is_active) := by
  refine ⟨?_, ?_, ?_⟩
  · intro db db2 rq ri c hfresh h
    obtain ⟨hc, hcs, -, -, -, -⟩ := create_country_ok_spec db db2 rq ri c h
    have hid : c.id = db.next_country_id := by rw [hc]
    have hmiss : db.countries.find? (fun x => x.id == c.id) = none :=
      List.find?_eq_none.mpr (fun x hx => by simp [hid, hfresh x hx])
    have hfind : db2.countries.find? (fun x => x.id == c.id) = some c := by
      rw [hcs, List.find?_append, hmiss]
      simp [List.find?_cons]
    exact ⟨hfind, by rw [hc], by rw [hc]⟩
  · intro db db2 rq ri s hfresh h
    obtain ⟨hc, hcs, -, -, -, -, -⟩ := create_state_ok_spec db db2 rq ri s h
    have hid : s.id = db.next_state_id := by rw [hc]
    have hmiss : db.states.find? (fun x => x.id == s.id) = none :=
      List.find?_eq_none.mpr (fun x hx => by simp [hid, hfresh x hx])
    have hfind : db2.states.find? (fun x => x.id == s.id) = some s := by
      rw [hcs, List.find?_append, hmiss]
      simp [List.find?_cons]
    refine ⟨?_, by rw [hc], by rw [hc], by rw [hc]⟩
    unfold get_state
    rw [hfind]
  · intro db db2 rq ri c hfresh h
    obtain ⟨hc, hcs, -, -, -, -, -⟩ := create_city_ok_spec db db2 rq ri c h
    have hid : c.id = db.next_city_id := by rw [hc]
    have hmiss : db.cities.find? (fun x => x.id == c.id && (true || x.is_active)) = none :=
      List.find?_eq_none.mpr (fun x hx => by simp [hid, hfresh x hx])
    have hfind : db2.cities.find? (fun x => x.id == c.id && (true || x.is_active)) = some c := by
      rw [hcs, List.find?_append, hmiss]
      simp [List.find?_cons]
    refine ⟨?_, by rw [hc], by rw [hc], by rw [hc], by rw [hc]⟩
    unfold get_city
    rw [hfind]

/-- Witness for C8: the round trip at a concrete city creation (inactive
input included). -/
theorem c8_witness :
    get_city (create_city dbOneState
        { state_id := 1, name := "Tsukui", code := "143626", is_active := false } ri0).1
      1 true =
      .ok { id := 1, state_id := 1, name := "Tsukui", code := "143626", is_active := false } := by
  have h := (c8_create_then_get_round_trip.2.2 dbOneState
    (create_city dbOneState
      { state_id := 1, name := "Tsukui", code := "143626", is_active := false } ri0).1
    { state_id := 1, name := "Tsukui", code := "143626", is_active := false } ri0
    { id := 1, state_id := 1, name := "Tsukui", code := "143626", is_active := false }
    (by decide) rfl)
  exact h.1

end GeoApi

namespace GeoApi

/-- C9: pagination follows insertion order — after exactly three successful
inserts into an initially empty table, List with skip 1 and limit 1 returns
exactly the second-inserted row (cities listed with the inactive-inclusive
flag so the slice is taken over all three rows). -/
theorem c9_skip1_limit1_second_row :
    (∀ db0 db1 db2 db3 rq1 rq2 rq3 ri1 ri2 ri3 c1 c2 c3,
      db0.countries = [] →
      create_country db0 rq1 ri1 = (db1, .ok c1) →
      create_country db1 rq2 ri2 = (db2, .ok c2) →
      create_country db2 rq3 ri3 = (db3, .ok c3) →
      get_countries db3 1 1 = [c2]) ∧
    (∀ db0 db1 db2 db3 rq1 rq2 rq3 ri1 ri2 ri3 s1 s2 s3,
      db0.states = [] →
      create_state db0 rq1 ri1 = (db1, .ok s1) →
      create_state db1 rq2 ri2 = (db2, .ok s2) →
      create_state db2 rq3 ri3 = (db3, .ok s3) →
      get_states db3 1 1 none = [s2]) ∧
    (∀ db0 db1 db2 db3 rq1 rq2 rq3 ri1 ri2 ri3 c1 c2 c3,
      db0.cities = [] →
      create_city db0 rq1 ri1 = (db1, .ok c1) →
      create_city db1 rq2 ri2 = (db2, .ok c2) →
      create_city db2 rq3 ri3 = (db3, .ok c3) →
      list_cities db3 1 1 true = [c2]) := by
  refine ⟨?_, ?_, ?_⟩
  · intro db0 db1 db2 db3 rq1 rq2 rq3 ri1 ri2 ri3 c1 c2 c3 h0 h1 h2 h3
    obtain ⟨-, hl1, -, -, -, -⟩ := create_country_ok_spec db0 db1 rq1 ri1 c1 h1
    obtain ⟨-, hl2, -, -, -, -⟩ := create_country_ok_spec db1 db2 rq2 ri2 c2 h2
    obtain ⟨-, hl3, -, -, -, -⟩ := create_country_ok_spec db2 db3 rq3 ri3 c3 h3
    unfold get_countries
    rw [hl3, hl2, hl1, h0]
    rfl
  · intro db0 db1 db2 db3 rq1 rq2 rq3 ri1 ri2 ri3 s1 s2 s3 h0 h1 h2 h3
    obtain ⟨-, hl1, -, -, -, -, -⟩ := create_state_ok_spec db0 db1 rq1 ri1 s1 h1
    obtain ⟨-, hl2, -, -, -, -, -⟩ := create_state_ok_spec db1 db2 rq2 ri2 s2 h2
    obtain ⟨-, hl3, -, -, -, -, -⟩ := create_state_ok_spec db2 db3 rq3 ri3 s3 h3
    unfold get_states
    rw [hl3, hl2, hl1, h0]
    rfl
  · intro db0 db1 db2 db3 rq1 rq2 rq3 ri1 ri2 ri3 c1 c2 c3 h0 h1 h2 h3
    obtain ⟨-, hl1, -, -, -, -, -⟩ := create_city_ok_spec db0 db1 rq1 ri1 c1 h1
    obtain ⟨-, hl2, -, -, -, -, -⟩ := create_city_ok_spec db1 db2 rq2 ri2 c2 h2
    obtain ⟨-, hl3, -, -, -, -, -⟩ := create_city_ok_spec db2 db3 rq3 ri3 c3 h3
    unfold list_cities
    rw [hl3, hl2, hl1, h0]
    simp

/-- Witness for C9: the second of three inserted countries is the one
returned at skip 1, limit 1. -/
theorem c9_witness :
    get_countries dbStep3 1 1 = [{ id := 2, name := "Bravo", code := "BB" }] :=
  c9_skip1_limit1_second_row.1 emptyDB dbStep1 dbStep2 dbStep3
    { name := "Alpha", code := "AA" } { name := "Bravo", code := "BB" }
    { name := "Charlie", code := "CC" } ri0 ri0 ri0
    { id := 1, name := "Alpha", code := "AA" } { id := 2, name := "Bravo", code := "BB" }
    { id := 3, name := "Charlie", code := "CC" } rfl rfl rfl rfl

end GeoApi

namespace GeoApi

/-- C6: country codes collide case-insensitively — a request entering the
pydantic layer as "jp" is normalized to "JP" by `validate_code_uppercase`,
so creating a country with code "JP" and then one with raw code "jp" fails
with DuplicateCode and leaves the store unchanged. -/
theorem c6_country_code_case_insensitive (db db1 : DB) (n1 n2 : String)
    (rq1 rq2 : CountryCreateRequest) (ri1 ri2 : RequestInfo) (c1 : Country)
    (h1 : mkCountryCreateRequest n1 "JP" = some rq1)
    (h2 : mkCountryCreateRequest n2 "jp" = some rq2)
    (hc : create_country db rq1 ri1 = (db1, .ok c1)) :
    create_country db1 rq2 ri2 = (db1, .error (.duplicateCode "Country" "JP")) := by
  unfold mkCountryCreateRequest at h1 h2
  split at h1
  case isFalse => exact absurd h1 (by simp)
  split at h2
  case isFalse => exact absurd h2 (by simp)
  obtain rfl := (Option.some.inj h1).symm
  obtain rfl := (Option.some.inj h2).symm
  have hcode1 : ({ name := n1, code := validate_code_uppercase "JP" } :
      CountryCreateRequest).code = "JP" := rfl
  have hcode2 : ({ name := n2, code := validate_code_uppercase "jp" } :
      CountryCreateRequest).code = "JP" := rfl
  obtain ⟨hc1, hcs, -, -, -, hval⟩ := create_country_ok_spec db db1 _ ri1 c1 hc
  rw [hcode1] at hval
  have hnone : db.countries.find? (fun c => c.code == "JP" && true) = none := by
    unfold validate_country_code_unique at hval
    dsimp only at hval
    cases hf : db.countries.find? (fun c => c.code == "JP" && true) with
    | none => rfl
    | some x =>
      rw [hf] at hval
      exact absurd hval (by simp)
  have hc1code : c1.code = "JP" := by
    rw [hc1]
    rfl
  have hfind1 : db1.countries.find? (fun c => c.code == "JP" && true) = some c1 := by
    rw [hcs, List.find?_append, hnone]
    simp [List.find?_cons, hc1code]
  have hval2 : validate_country_code_unique db1
      ({ name := n2, code := validate_code_uppercase "jp" } : CountryCreateRequest).code
      none = .error (.duplicateCode "Country" "JP") := by
    rw [hcode2]
    unfold validate_country_code_unique
    dsimp only
    rw [hfind1]
  unfold create_country
  rw [hval2]

/-- Witness for C6: concrete "JP" then raw "jp" creation fails with
DuplicateCode. -/
theorem c6_witness :
    create_country dbAfterJP { name := "Nippon", code := validate_code_uppercase "jp" } ri0 =
      (dbAfterJP, .error (.duplicateCode "Country" "JP")) :=
  c6_country_code_case_insensitive emptyDB dbAfterJP "Japan" "Nippon"
    { name := "Japan", code := validate_code_uppercase "JP" }
    { name := "Nippon", code := validate_code_uppercase "jp" }
    ri0 ri0 { id := 1, name := "Japan", code := "JP" } rfl rfl rfl

end GeoApi

namespace GeoApi

/-- C2: deleting a country that still owns a state (or a state that still
owns a city) fails on the delete-restrict foreign key at commit time — the
whole transaction, including the already-staged DELETE event-log row, is
rolled back, so the returned store is exactly the input store: the parent
row is still there and no event-log row was written. The integrity failure
is the storage-level restrict violation that the spec's error taxonomy
reports as RestrictedDeletion. -/
theorem c2_restricted_delete_writes_nothing (db : DB) (id : Nat) (ri : RequestInfo)
    (hok : commitCheck db = none) :
    ((∃ s ∈ db.states, s.country_id = id) →
      delete_country db id ri =
        (db, .error (.integrity (.fkViolation "states_country_id_fkey")))) ∧
    ((∃ ci ∈ db.cities, ci.state_id = id) →
      delete_state db id ri =
        (db, .error (.integrity (.fkViolation "cities_state_id_fkey")))) := by
  obtain ⟨h1, h2, h3, h4, h5⟩ := (commitCheck_eq_none_iff db).mp hok
  have hstateFk : ∀ s ∈ db.states, ∃ c ∈ db.countries, c.id = s.country_id := by
    intro s hs
    have hx := List.any_eq_false.mp h4 s hs
    simp only [Bool.not_eq_true', Bool.not_eq_false] at hx
    obtain ⟨c, hc, hcid⟩ := List.any_eq_true.mp hx
    exact ⟨c, hc, by simpa using hcid⟩
  have hcityFk : ∀ ci ∈ db.cities, ∃ s ∈ db.states, s.id = ci.state_id := by
    intro ci hci
    have hx := List.any_eq_false.mp h5 ci hci
    simp only [Bool.not_eq_true', Bool.not_eq_false] at hx
    obtain ⟨s, hs, hsid⟩ := List.any_eq_true.mp hx
    exact ⟨s, hs, by simpa using hsid⟩
  constructor
  · rintro ⟨s0, hs0, hs0id⟩
    obtain ⟨c0, hc0, hc0id⟩ := hstateFk s0 hs0
    have hsome : (db.countries.find? (fun c => c.id == id)).isSome :=
      List.find?_isSome.mpr ⟨c0, hc0, by simp [hc0id, hs0id]⟩
    cases hfind : db.countries.find? (fun c => c.id == id) with
    | none => rw [hfind] at hsome; cases hsome
    | some country =>
      unfold delete_country
      rw [hfind]
      dsimp only
      have hcond1 : hasDup ((db.countries.filter fun c => !(c.id == id)).map
          fun c => c.code) = false :=
        hasDup_false_of_sublist _ _ (List.Sublist.map _ (List.filter_sublist _)) h1
      have hcond4 : ((db.states.any fun s =>
          !((db.countries.filter fun c => !(c.id == id)).any
            fun c => c.id == s.country_id)) = true) := by
        rw [List.any_eq_true]
        refine ⟨s0, hs0, ?_⟩
        have : ((db.countries.filter fun c => !(c.id == id)).any
            fun c => c.id == s0.country_id) = false := by
          rw [List.any_eq_false]
          intro c hcmem
          have hcp := (List.mem_filter.mp hcmem).2
          simp only [Bool.not_eq_true'] at hcp
          simp [hs0id, hcp]
        simp [this]
      have hcommit : commitCheck
          { db with countries := db.countries.filter fun c => !(c.id == id)
                    event_logs := db.event_logs ++
                      [mkEventLog "DELETE" "country" country.id ri] } =
          some (.fkViolation "states_country_id_fkey") := by
        unfold commitCheck
        simp only [hcond1, hcond4, h2, h3]
        rfl
      rw [hcommit]
  · rintro ⟨ci0, hci0, hci0id⟩
    obtain ⟨s0, hs0, hs0id⟩ := hcityFk ci0 hci0
    have hsome : (db.states.find? (fun s => s.id == id)).isSome :=
      List.find?_isSome.mpr ⟨s0, hs0, by simp [hs0id, hci0id]⟩
    cases hfind : db.states.find? (fun s => s.id == id) with
    | none => rw [hfind] at hsome; cases hsome
    | some state =>
      unfold delete_state
      rw [hfind]
      dsimp only
      have hcond2 : hasDup ((db.states.filter fun s => !(s.id == id)).map
          fun s => s.code) = false :=
        hasDup_false_of_sublist _ _ (List.Sublist.map _ (List.filter_sublist _)) h2
      have hcond4 : ((db.states.filter fun s => !(s.id == id)).any fun s =>
          !(db.countries.any fun c => c.id == s.country_id)) = false := by
        rw [List.any_eq_false]
        intro s hsmem
        obtain ⟨c, hc, hcid⟩ := hstateFk s (List.mem_filter.mp hsmem).1
        have : (db.countries.any fun c => c.id == s.country_id) = true :=
          List.any_eq_true.mpr ⟨c, hc, by simp [hcid]⟩
        simp [this]
      have hcond5 : ((db.cities.any fun ci =>
          !((db.states.filter fun s => !(s.id == id)).any
            fun s => s.id == ci.state_id)) = true) := by
        rw [List.any_eq_true]
        refine ⟨ci0, hci0, ?_⟩
        have : ((db.states.filter fun s => !(s.id == id)).any
            fun s => s.id == ci0.state_id) = false := by
          rw [List.any_eq_false]
          intro s hsmem
          have hsp := (List.mem_filter.mp hsmem).2
          simp only [Bool.not_eq_true'] at hsp
          simp [hci0id, hsp]
        simp [this]
      have hcommit : commitCheck
          { db with states := db.states.filter fun s => !(s.id == id)
                    event_logs := db.event_logs ++
                      [mkEventLog "DELETE" "state" state.id ri] } =
          some (.fkViolation "cities_state_id_fkey") := by
        unfold commitCheck
        simp only [h1, hcond2, h3, hcond4, hcond5]
        rfl
      rw [hcommit]

/-- Witness for C2: deleting country 1, which owns state 1, and deleting
state 1, which owns city 1, both fail on the restrict constraint and leave
the store untouched. -/
theorem c2_witness :
    delete_country dbOneState 1 ri0 =
      (dbOneState, .error (.integrity (.fkViolation "states_country_id_fkey"))) ∧
    delete_state dbOneActiveCity 1 ri0 =
      (dbOneActiveCity, .error (.integrity (.fkViolation "cities_state_id_fkey"))) := by
  constructor
  · exact (c2_restricted_delete_writes_nothing dbOneState 1 ri0 (by decide)).1
      ⟨{ id := 1, country_id := 1, name := "Tokyo", code := "JP-13" }, by decide, rfl⟩
  · exact (c2_restricted_delete_writes_nothing dbOneActiveCity 1 ri0 (by decide)).2
      ⟨{ id := 1, state_id := 1, name := "Minato", code := "131016", is_active := true },
        by decide, rfl⟩

end GeoApi

namespace GeoApi

theorem activeCityCodes_append (l1 l2 : List City) :
    activeCityCodes (l1 ++ l2) = activeCityCodes l1 ++ activeCityCodes l2 := by
  unfold activeCityCodes
  rw [List.filter_append, List.map_append]

theorem activeCityCodes_mem (cities : List City) (c : City)
    (hc : c ∈ cities) (ha : c.is_active = true) : c.code ∈ activeCityCodes cities := by
  unfold activeCityCodes
  exact List.mem_map_of_mem _ (List.mem_filter.mpr ⟨hc, by simp [ha]⟩)

theorem mem_activeCityCodes (cities : List City) (a : String)
    (h : a ∈ activeCityCodes cities) :
    ∃ c, c ∈ cities ∧ c.is_active = true ∧ c.code = a := by
  unfold activeCityCodes at h
  obtain ⟨c, hc, rfl⟩ := List.mem_map.mp h
  exact ⟨c, (List.mem_filter.mp hc).1, by simpa using (List.mem_filter.mp hc).2, rfl⟩

theorem hasDup_append_singleton_false (l : List String) (a : String)
    (hl : hasDup l = false) (ha : a ∉ l) : hasDup (l ++ [a]) = false := by
  rw [hasDup_eq_false_iff]
  have h : (a :: (l ++ [])).Nodup := by
    rw [List.nodup_cons]
    exact ⟨by simpa using ha, by simpa using (hasDup_eq_false_iff l).mp hl⟩
  exact (List.nodup_middle).mpr h

/-- C1 counterexample: the claim asserts that creating an *inactive* city
reusing an existing *active* city's code succeeds, but
`validate_city_code_unique` checks the candidate code against active rows
regardless of the candidate's own `is_active`, so the creation fails with
DuplicateCode. -/
theorem c1_counterexample :
    create_city dbOneActiveCity
      { state_id := 1, name := "Shiba", code := "131016", is_active := false } ri0 =
      (dbOneActiveCity, .error (.duplicateCode "Active city" "131016")) := rfl

/-- C1 amended: creating any city — active or inactive — whose code matches
an existing active city fails with DuplicateCode, while creating a city
whose code is held by no active city (it may be held by inactive cities)
succeeds; so two same-code cities are creatable exactly when the existing
one is inactive at the time of the second creation. -/
theorem c1_active_city_code_uniqueness (db : DB) (rq : CityCreateRequest)
    (ri : RequestInfo) :
    ((∃ s ∈ db.states, s.id = rq.state_id) →
      (∃ c ∈ db.cities, c.is_active = true ∧ c.code = rq.code) →
      create_city db rq ri = (db, .error (.duplicateCode "Active city" rq.code))) ∧
    (commitCheck db = none →
      (∃ s ∈ db.states, s.id = rq.state_id) →
      (∀ c ∈ db.cities, c.is_active = true → c.code ≠ rq.code) →
      create_city db rq ri =
        ({ db with
            cities := db.cities ++ [{ id := db.next_city_id, state_id := rq.state_id, name := rq.name, code := rq.code, is_active := rq.is_active }]
            event_logs := db.event_logs ++ [mkEventLog "CREATE" "city" db.next_city_id ri]
            next_city_id := db.next_city_id + 1 },
          .ok { id := db.next_city_id, state_id := rq.state_id, name := rq.name, code := rq.code, is_active := rq.is_active })) := by
  constructor
  · rintro ⟨s, hs, hsid⟩ ⟨c, hcmem, hcact, hccode⟩
    have hsome1 : (db.states.find? (fun x => x.id == rq.state_id)).isSome :=
      List.find?_isSome.mpr ⟨s, hs, by simp [hsid]⟩
    cases hf1 : db.states.find? (fun x => x.id == rq.state_id) with
    | none => rw [hf1] at hsome1; cases hsome1
    | some sx =>
      have hval1 : validate_state_exists db rq.state_id = .ok () := by
        unfold validate_state_exists
        rw [hf1]
      have hsome2 : (db.cities.find?
          (fun x => x.code == rq.code && x.is_active && true)).isSome :=
        List.find?_isSome.mpr ⟨c, hcmem, by simp [hccode, hcact]⟩
      cases hf2 : db.cities.find? (fun x => x.code == rq.code && x.is_active && true) with
      | none => rw [hf2] at hsome2; cases hsome2
      | some cx =>
        have hval2 : validate_city_code_unique db rq.code none =
            .error (.duplicateCode "Active city" rq.code) := by
          unfold validate_city_code_unique
          dsimp only
          rw [hf2]
        unfold create_city
        rw [hval1]
        dsimp only
        rw [hval2]
  · intro hok ⟨s, hs, hsid⟩ hno
    obtain ⟨h1, h2, h3, h4, h5⟩ := (commitCheck_eq_none_iff db).mp hok
    have hsome1 : (db.states.find? (fun x => x.id == rq.state_id)).isSome :=
      List.find?_isSome.mpr ⟨s, hs, by simp [hsid]⟩
    cases hf1 : db.states.find? (fun x => x.id == rq.state_id) with
    | none => rw [hf1] at hsome1; cases hsome1
    | some sx =>
      have hval1 : validate_state_exists db rq.state_id = .ok () := by
        unfold validate_state_exists
        rw [hf1]
      have hf2 : db.cities.find? (fun x => x.code == rq.code && x.is_active && true) =
          none := by
        rw [List.find?_eq_none]
        intro x hx
        cases hxa : x.is_active with
        | false => simp [hxa]
        | true => simp [hxa, hno x hx hxa]
      have hval2 : validate_city_code_unique db rq.code none = .ok () := by
        unfold validate_city_code_unique
        dsimp only
        rw [hf2]
      unfold create_city
      rw [hval1]
      dsimp only
      rw [hval2]
      dsimp only
      have hcommit : commitCheck
          { db with
            cities := db.cities ++ [{ id := db.next_city_id, state_id := rq.state_id, name := rq.name, code := rq.code, is_active := rq.is_active }]
            event_logs := db.event_logs ++ [mkEventLog "CREATE" "city" db.next_city_id ri]
            next_city_id := db.next_city_id + 1 } = none := by
        rw [commitCheck_eq_none_iff]
        refine ⟨h1, h2, ?_, h4, ?_⟩
        · rw [activeCityCodes_append]
          cases hra : rq.is_active with
          | false =>
            have hnil : activeCityCodes [{ id := db.next_city_id, state_id := rq.state_id, name := rq.name, code := rq.code, is_active := false }] = [] := by
              unfold activeCityCodes
              simp
            rw [hnil, List.append_nil]
            exact h3
          | true =>
            have hone : activeCityCodes [{ id := db.next_city_id, state_id := rq.state_id, name := rq.name, code := rq.code, is_active := true }] = [rq.code] := by
              unfold activeCityCodes
              simp
            rw [hone]
            refine hasDup_append_singleton_false _ _ h3 ?_
            intro hmem
            obtain ⟨c, hcmem, hcact, hccode⟩ := mem_activeCityCodes _ _ hmem
            exact hno c hcmem hcact hccode
        · rw [List.any_append]
          rw [List.any_eq_false] at h5
          have hl : (db.cities.any fun ci =>
              !(db.states.any fun st => st.id == ci.state_id)) = false := by
            rw [List.any_eq_false]
            intro x hx
            simpa using h5 x hx
          have hr : (([{ id := db.next_city_id, state_id := rq.state_id, name := rq.name, code := rq.code, is_active := rq.is_active }] : List City).any fun ci =>
              !(db.states.any fun st => st.id == ci.state_id)) = false := by
            have hp : (db.states.any fun st => st.id == rq.state_id) = true :=
              List.any_eq_true.mpr ⟨s, hs, by simp [hsid]⟩
            simp [List.any_cons, hp]
          rw [hl, hr]
          rfl
      rw [hcommit]

/-- Witness for C1: a second *active* city with an active city's code fails
with DuplicateCode, while an active city reusing an inactive city's code is
created. -/
theorem c1_witness :
    create_city dbOneActiveCity
      { state_id := 1, name := "Shiba2", code := "131016", is_active := true } ri0 =
      (dbOneActiveCity, .error (.duplicateCode "Active city" "131016")) ∧
    (create_city dbOneInactiveCity
      { state_id := 1, name := "NewTsukui", code := "143626", is_active := true } ri0).2 =
      .ok { id := 2, state_id := 1, name := "NewTsukui", code := "143626", is_active := true } := by
  constructor
  · exact (c1_active_city_code_uniqueness dbOneActiveCity
      { state_id := 1, name := "Shiba2", code := "131016", is_active := true } ri0).1
      ⟨{ id := 1, country_id := 1, name := "Tokyo", code := "JP-13" }, by decide, rfl⟩
      ⟨{ id := 1, state_id := 1, name := "Minato", code := "131016", is_active := true },
        by decide, rfl, rfl⟩
  · have h := (c1_active_city_code_uniqueness dbOneInactiveCity
      { state_id := 1, name := "NewTsukui", code := "143626", is_active := true } ri0).2
      (by decide)
      ⟨{ id := 1, country_id := 1, name := "Tokyo", code := "JP-13" }, by decide, rfl⟩
      (by decide)
    rw [h]
    rfl

end GeoApi

namespace GeoApi

theorem map_replace_eq_self {α : Type} (f : α → Nat) (l : List α) (i : Nat) (r : α)
    (h : ∀ x ∈ l, f x ≠ i) : (l.map fun y => if f y == i then r else y) = l := by
  induction l with
  | nil => rfl
  | cons b t ih =>
    rw [List.map_cons]
    have hb : (f b == i) = false := by simp [h b (List.mem_cons_self b t)]
    simp only [hb, Bool.false_eq_true, if_false]
    rw [ih (fun x hx => h x (List.mem_cons_of_mem b hx))]

/-- C5 counterexample: reactivating the inactive city 1 of `dbSharedCode`
(no code supplied) while active city 2 holds the same code is NOT rejected
by the validator layer — the update passes validation and fails only at
commit on the partial unique index, surfacing as an integrity error, not as
the validator's DuplicateCode. -/
theorem c5_counterexample :
    update_city dbSharedCode 1 { name := none, code := none, is_active := some true }
      ri0 true =
      (dbSharedCode, .error (.integrity (.uniqueViolation "cities_code_active_unique"))) :=
  rfl

/-- C5 amended: the validator layer alone does not preserve the
at-most-one-active-city-per-code invariant — update only validates the code
when one is supplied and different, so a reactivation (`is_active := true`,
no code supplied) passes validation and is rejected only by the storage
partial unique index `cities_code_active_unique` at commit time, as an
integrity error that rolls the transaction back. -/
theorem c5_reactivation_rejected_by_storage_only (db : DB) (i : Nat)
    (u : CityUpdateRequest) (ri : RequestInfo) (city other : City)
    (hok : commitCheck db = none)
    (hids : (db.cities.map City.id).Nodup)
    (hmem : city ∈ db.cities) (hid : city.id = i)
    (homem : other ∈ db.cities) (hoid : other.id ≠ i) (hoact : other.is_active = true)
    (hocode : other.code = city.code)
    (hucode : u.code = none) (huact : u.is_active = some true) :
    update_city db i u ri true =
      (db, .error (.integrity (.uniqueViolation "cities_code_active_unique"))) := by
  obtain ⟨h1, h2, h3, h4, h5⟩ := (commitCheck_eq_none_iff db).mp hok
  have hfind : db.cities.find? (fun x => x.id == i && (true || x.is_active)) = some city := by
    have hp : (fun x : City => x.id == i && (true || x.is_active)) =
        (fun x : City => x.id == city.id) := by
      funext x
      simp [hid]
    rw [hp]
    exact find?_by_id_of_nodup City.id db.cities city hids hmem
  have hval : update_city_code_validation db i u city = .ok () := by
    unfold update_city_code_validation
    rw [hucode]
  obtain ⟨hid', hst', hname', hcode', hact'⟩ := applyCityUpdate_fields u city
  rw [hucode, Option.getD_none] at hcode'
  rw [huact, Option.getD_some] at hact'
  obtain ⟨l1, l2, hsplit⟩ := List.append_of_mem hmem
  have hmapids : db.cities.map City.id =
      l1.map City.id ++ City.id city :: l2.map City.id := by
    rw [hsplit]
    simp
  have hnotin : City.id city ∉ l1.map City.id ++ l2.map City.id := by
    rw [hmapids] at hids
    exact (List.nodup_cons.mp (List.nodup_middle.mp hids)).1
  have hl1 : ∀ x ∈ l1, x.id ≠ i := by
    intro x hx hEq
    refine hnotin (List.mem_append.mpr (Or.inl ?_))
    have : City.id city = City.id x := by rw [hid, hEq]
    rw [this]
    exact List.mem_map_of_mem City.id hx
  have hl2 : ∀ x ∈ l2, x.id ≠ i := by
    intro x hx hEq
    refine hnotin (List.mem_append.mpr (Or.inr ?_))
    have : City.id city = City.id x := by rw [hid, hEq]
    rw [this]
    exact List.mem_map_of_mem City.id hx
  have hstaged : (db.cities.map fun c => if c.id == i then applyCityUpdate u city else c) =
      l1 ++ applyCityUpdate u city :: l2 := by
    rw [hsplit, List.map_append, List.map_cons]
    rw [map_replace_eq_self City.id l1 i (applyCityUpdate u city) hl1]
    rw [map_replace_eq_self City.id l2 i (applyCityUpdate u city) hl2]
    have hcid : (city.id == i) = true := by simp [hid]
    rw [hcid]
    rfl
  have hacts : activeCityCodes (l1 ++ applyCityUpdate u city :: l2) =
      activeCityCodes l1 ++ (applyCityUpdate u city).code :: activeCityCodes l2 := by
    have hsingle : activeCityCodes [applyCityUpdate u city] =
        [(applyCityUpdate u city).code] := by
      unfold activeCityCodes
      simp [hact']
    have : l1 ++ applyCityUpdate u city :: l2 = (l1 ++ [applyCityUpdate u city]) ++ l2 := by
      simp
    rw [this, activeCityCodes_append, activeCityCodes_append, hsingle]
    simp
  have hother : other ∈ l1 ∨ other ∈ l2 := by
    rw [hsplit] at homem
    rcases List.mem_append.mp homem with h | h
    · exact Or.inl h
    · rcases List.mem_cons.mp h with hEq | h
      · exact absurd (hEq ▸ hid) hoid
      · exact Or.inr h
  have hdupmem : (applyCityUpdate u city).code ∈ activeCityCodes l1 ∨
      (applyCityUpdate u city).code ∈ activeCityCodes l2 := by
    rw [hcode', ← hocode]
    rcases hother with h | h
    · exact Or.inl (activeCityCodes_mem l1 other h hoact)
    · exact Or.inr (activeCityCodes_mem l2 other h hoact)
  have hdup : hasDup (activeCityCodes
      (db.cities.map fun c => if c.id == i then applyCityUpdate u city else c)) = true := by
    rw [hstaged, hacts]
    exact hasDup_true_of_middle_mem _ _ _ hdupmem
  unfold update_city
  rw [hfind]
  dsimp only
  rw [hval]
  dsimp only
  have hcommit : commitCheck
      { db with
        cities := db.cities.map fun c => if c.id == i then applyCityUpdate u city else c
        event_logs := db.event_logs ++
          [mkEventLog "UPDATE" "city" (applyCityUpdate u city).id ri] } =
      some (.uniqueViolation "cities_code_active_unique") := by
    unfold commitCheck
    simp only [h1, h2, hdup]
    rfl
  rw [hcommit]

/-- Witness for C5: the amended claim at the concrete shared-code store —
reactivation of inactive city 1 is rejected by the storage index, with the
store unchanged. -/
theorem c5_witness :
    update_city dbSharedCode 1
      { name := some "TsukuiTown", code := none, is_active := some true } ri0 true =
      (dbSharedCode, .error (.integrity (.uniqueViolation "cities_code_active_unique"))) := by
  have h := c5_reactivation_rejected_by_storage_only dbSharedCode 1
    { name := some "TsukuiTown", code := none, is_active := some true } ri0
    { id := 1, state_id := 1, name := "Tsukui", code := "131016", is_active := false }
    { id := 2, state_id := 1, name := "Minato", code := "131016", is_active := true }
    (by decide) (by decide) (by decide) rfl (by decide) (by decide) rfl rfl
  exact h rfl rfl

end GeoApi
